import Mathlib

/-!
Shallow embedding of `mezzanine/conf/__init__.py`: the setting registry
(`register_setting`) and the `Settings` resolver with its per-request
editable-settings cache (`_load`, `_get_editable`, `clear_cache`,
`__getattr__`).

Python dynamic values are embedded as the inductive `PyVal`; Python runtime
classes as `PyType`.  The Django settings object is a partial map
`String → Option PyVal` (`hasattr` = `isSome`, `getattr` = lookup).  The
database table of persisted `Setting` rows is a list of `(name, value)`
pairs of strings.

Conversion failures carry the raised exception: the exception-faithful
layer (`OtherConvExc`, `convertValueExc`, `convertOrDefaultExc`,
`Settings.loadExc`) distinguishes the `ValueError` that `_load`'s
`except ValueError` recovers from the other exceptions, which propagate
and abort the load.  The total layer (`OtherConv`, `convertValue`,
`Settings.load`) restricts other-class conversions to `ValueError`-only
failures; `loadExc_eq_load` proves the two layers agree there.
-/

namespace Mezzanine

/-- Python runtime classes that matter to this module: the four types the
registry special-cases plus an opaque tag for every other class. -/
inductive PyType : Type
  | bool
  | int
  | str
  | bytes
  | other (tag : String)
deriving DecidableEq, Repr

/-- Python values as this module manipulates them: booleans, ints, text,
byte-strings, Django lazy-translation `Promise` objects, lists of text (the
shape of the module's sequence-valued defaults), and `None`. -/
inductive PyVal : Type
  | bool (b : Bool)
  | int (i : Int)
  | str (s : String)
  | bytes (bs : List UInt8)
  | promise (s : String)
  | list (xs : List String)
  | none
deriving DecidableEq, Repr

/-- Python's `type(v)`. -/
def PyVal.typeOf : PyVal → PyType
  | .bool _ => .bool
  | .int _ => .int
  | .str _ => .str
  | .bytes _ => .bytes
  | .promise _ => .other "Promise"
  | .list _ => .other "list"
  | .none => .other "NoneType"

/-- Python `isinstance(v, bool)`. -/
def isinstBool : PyVal → Bool
  | .bool _ => true
  | _ => false

/-- Python `isinstance(v, int)`: in Python `bool` is a subclass of `int`, so a
boolean value is also an instance of `int`. -/
def isinstInt : PyVal → Bool
  | .bool _ => true
  | .int _ => true
  | _ => false

/-- Python `isinstance(v, (str, Promise))`. -/
def isinstStrOrPromise : PyVal → Bool
  | .str _ => true
  | .promise _ => true
  | _ => false

/-- Python `isinstance(v, bytes)`. -/
def isinstBytes : PyVal → Bool
  | .bytes _ => true
  | _ => false

/-- The type-inference chain of `register_setting` (lines 59-72 of the
source): `bool` is tested before `int` (comment: "Prevent bools treated as
ints"), then `str`/`Promise`, then `bytes`, else `type(default)`. -/
def inferSettingType (default : PyVal) : PyType :=
  if isinstBool default then .bool
  else if isinstInt default then .int
  else if isinstStrOrPromise default then .str
  else if isinstBytes default then .bytes
  else default.typeOf

/-- A registered setting descriptor: the dict stored in `registry[name]`. -/
structure SettingDesc where
  name : String
  label : String
  editable : Bool
  description : Option String
  default : PyVal
  choices : Option (List PyVal)
  type : PyType
  translatable : Bool
deriving DecidableEq, Repr

/-- The process-wide `registry` dict, as a partial map. -/
def Registry : Type := String → Option SettingDesc

/-- The Django settings object `django_settings`, as a partial map:
`hasattr` is `isSome`, `getattr` is lookup. -/
def DjangoSettings : Type := String → Option PyVal

/-- Python exceptions raised or caught by this module. -/
inductive PyErr : Type
  | typeError
  | valueError
  | attributeError
deriving DecidableEq, Repr

/-- Python's `str.title()`: the first letter of each run of cased characters
is uppercased, the rest lowercased; used for the default label
`name.replace("_", " ").title()`. -/
def pyTitle (s : String) : String :=
  (s.data.foldl
    (fun (acc : List Char × Bool) c =>
      let cased := c.isAlpha
      let c' := if cased then (if acc.2 then c.toLower else c.toUpper) else c
      (acc.1 ++ [c'], cased))
    ([], false)).1 |> String.mk

/-- Python `a += b` (`__iadd__`) for the value shapes a registry default can
take: list, text, byte-string and numeric concatenation/addition; `none`
models a `TypeError` for non-concatenable combinations. -/
def pyAdd : PyVal → PyVal → Option PyVal
  | .list a, .list b => some (.list (a ++ b))
  | .str a, .str b => some (.str (a ++ b))
  | .bytes a, .bytes b => some (.bytes (a ++ b))
  | .int a, .int b => some (.int (a + b))
  | .bool a, .bool b => some (.int ((if a then 1 else 0) + (if b then 1 else 0)))
  | _, _ => Option.none

/-- The body of `register_setting` once the `name` keyword is known to be
present: the `editable`-without-`default` check, the append path, the
`hasattr(django_settings, name)` editable-forcing, the default label, the
type inference and the registry store. -/
def register_setting_named (reg : Registry) (dj : DjangoSettings)
    (n : String) (label : Option String) (editable : Bool)
    (description : Option String) (default : PyVal)
    (choices : Option (List PyVal)) (append : Bool) (translatable : Bool) :
    Except PyErr Registry :=
  if editable = true ∧ default = PyVal.none then .error .typeError
  else
    match reg n, append with
    | some desc, true =>
      -- append path: concatenate onto the existing default and return.
      (match pyAdd desc.default default with
       | some d => .ok (fun m => if m = n then some { desc with default := d } else reg m)
       | Option.none => .error .typeError)
    | _, _ =>
      .ok (fun m =>
        if m = n then
          some { name := n, label := label.getD (pyTitle (n.replace "_" " ")),
                 editable := if (dj n).isSome then false else editable,
                 description := description, default := default,
                 choices := choices, type := inferSettingType default,
                 translatable := translatable }
        else reg m)

/-- The function `register_setting(name, label, editable, description,
default, choices, append, translatable)` acting on a registry, with the Django settings object
supplied for the `hasattr(django_settings, name)` check.  Errors are the
`TypeError`s the source raises; the append path may also raise `TypeError`
when `+=` is unsupported between the two defaults. -/
def register_setting (reg : Registry) (dj : DjangoSettings)
    (name : Option String) (label : Option String) (editable : Bool)
    (description : Option String) (default : PyVal)
    (choices : Option (List PyVal)) (append : Bool) (translatable : Bool) :
    Except PyErr Registry :=
  match name with
  | Option.none => .error .typeError
  | some n =>
    register_setting_named reg dj n label editable description default
      choices append translatable

/-- Python `bytes(val, encoding='utf8')`: UTF-8 bytes of the text. -/
def strBytes (s : String) : List UInt8 := s.toUTF8.toList

/-- Digits-only parse of a nonempty character list, for Python `int(...)`. -/
def digitsToNat (cs : List Char) : Option Nat :=
  if cs ≠ [] ∧ cs.all Char.isDigit then
    some (cs.foldl (fun a c => a * 10 + (c.toNat - 48)) 0)
  else Option.none

/-- The whitespace stripping Python's `int(...)` applies to its argument
before parsing. -/
def pyStrip (s : String) : List Char :=
  ((s.data.dropWhile Char.isWhitespace).reverse.dropWhile Char.isWhitespace).reverse

/-- Python `int(s)`: optional surrounding whitespace, optional sign, at
least one digit; anything else raises `ValueError` (here `none`). -/
def pyIntOfString (s : String) : Option Int :=
  match pyStrip s with
  | '+' :: cs => (digitsToNat cs).map Int.ofNat
  | '-' :: cs => (digitsToNat cs).map (fun n => -(Int.ofNat n))
  | cs => (digitsToNat cs).map Int.ofNat

/-- Conversion behaviour of classes outside the four special-cased ones,
restricted to classes whose constructor fails only with `ValueError` on
bad text (tag and stored text to converted value, `none` for that
`ValueError`).  This is the recoverable fragment of the exception-faithful
`OtherConvExc` below: `Settings._load` catches only `ValueError`, so over
an `OtherConv` the load is total, and `loadExc_eq_load` proves it agrees
with the exception-faithful load.  A class whose constructor raises
something else (Python's `NoneType(...)` raises `TypeError`) is not
expressible here; it aborts the load, see `Settings.loadExc`. -/
def OtherConv : Type := String → String → Option PyVal

/-- The conversion `type_fn = TYPE_FUNCTIONS.get(setting_type, setting_type);
type_fn(setting_obj.value)`: the stored text converted by the setting's
type.  `TYPE_FUNCTIONS` maps `bool` to `lambda val: val != "False"` and
`bytes` to UTF-8 encoding; any other type is itself applied to the text
(`int(...)` parses and may raise `ValueError`, `str(...)` is the identity
on text, other classes behave as the `oc` parameter says).  A `none`
result is a `ValueError`, the only failure this `OtherConv`-based layer
can express; see `convertValueExc` for the exception-faithful version. -/
def convertValue (oc : OtherConv) (t : PyType) (v : String) : Option PyVal :=
  match t with
  | .bool => some (.bool (v ≠ "False"))
  | .bytes => some (.bytes (strBytes v))
  | .int => (pyIntOfString v).map PyVal.int
  | .str => some (.str v)
  | .other tag => oc tag v

/-- The `try: setting_value = type_fn(...) except ValueError:` block of
`Settings._load`, over the `ValueError`-only conversions: a failed
conversion falls back to the registered default. -/
def convertOrDefault (oc : OtherConv) (desc : SettingDesc) (v : String) : PyVal :=
  match convertValue oc desc.type v with
  | some x => x
  | Option.none => desc.default

/-- Exception-faithful conversion behaviour of classes outside the four
special-cased ones: the error names the exception the class's constructor
raises on the stored text — `.valueError` is the one `Settings._load`
recovers from; anything else (Python's `NoneType(...)` raises
`TypeError`, for instance) propagates out of the load. -/
def OtherConvExc : Type := String → String → Except PyErr PyVal

/-- Exception-faithful `type_fn(setting_obj.value)`: like `convertValue`,
but an other-class constructor may fail with any exception, not only
`ValueError`. -/
def convertValueExc (oc : OtherConvExc) (t : PyType) (v : String) :
    Except PyErr PyVal :=
  match t with
  | .bool => .ok (.bool (v ≠ "False"))
  | .bytes => .ok (.bytes (strBytes v))
  | .int =>
    match pyIntOfString v with
    | some i => .ok (.int i)
    | Option.none => .error .valueError
  | .str => .ok (.str v)
  | .other tag => oc tag v

/-- Exception-faithful `try: setting_value = type_fn(...) except
ValueError:` block: a `ValueError` falls back to the registered default;
any other exception is not caught and propagates. -/
def convertOrDefaultExc (oc : OtherConvExc) (desc : SettingDesc) (v : String) :
    Except PyErr PyVal :=
  match convertValueExc oc desc.type v with
  | .ok x => .ok x
  | .error .valueError => .ok desc.default
  | .error e => .error e

/-- A persisted `Setting` row: `(name, value)` both stored as text. -/
structure Row where
  name : String
  value : String
deriving DecidableEq, Repr

/-- The per-request cache of editable settings: a dict from setting name to
converted value. -/
def Cache : Type := String → Option PyVal

/-- The empty dict. -/
def emptyCache : Cache := fun _ => Option.none

/-- Dict assignment `cache[name] = v`. -/
def cacheInsert (c : Cache) (n : String) (v : PyVal) : Cache :=
  fun m => if m = n then some v else c m

/-- Accumulator of the row scan in `Settings._load`: the
`removed_settings` and `conflicting_settings` lists and the `new_cache`
dict being built. -/
structure LoadState where
  removed : List String
  conflicting : List String
  cache : Cache

/-- The body of the `for setting_obj in Setting.objects.all():` loop of
`Settings._load`, processing one row: an unregistered name is appended to
the removal list and skipped; otherwise the stored text is converted
(falling back to the default on `ValueError`), and the value enters the
cache only when `django_settings` lacks the name — else the name is
appended to the conflict list exactly when the converted value differs
from the registered default. -/
def loadStep (reg : Registry) (dj : DjangoSettings) (oc : OtherConv)
    (st : LoadState) (row : Row) : LoadState :=
  match reg row.name with
  | Option.none => { st with removed := st.removed ++ [row.name] }
  | some desc =>
    match dj row.name with
    | Option.none =>
      { st with cache := cacheInsert st.cache row.name (convertOrDefault oc desc row.value) }
    | some _ =>
      if convertOrDefault oc desc row.value = desc.default then st
      else { st with conflicting := st.conflicting ++ [row.name] }

/-- Everything `Settings._load` produces: the returned cache, the two
lists it accumulated, the database contents after the bulk delete of
removed rows, and the warnings it emitted (each conflict warning carries
the list of names it reports). -/
structure LoadResult where
  newCache : Cache
  removedSettings : List String
  conflictingSettings : List String
  dbAfter : List Row
  warnings : List (List String)

/-- The method `Settings._load`: scan all persisted rows, then bulk-delete the rows
whose names are no longer registered (`if removed_settings:` guards a
delete of exactly those rows) and warn once when any conflicting names
were found. -/
def Settings.load (reg : Registry) (dj : DjangoSettings) (oc : OtherConv)
    (db : List Row) : LoadResult :=
  let st := db.foldl (loadStep reg dj oc) ⟨[], [], emptyCache⟩
  { newCache := st.cache
    removedSettings := st.removed
    conflictingSettings := st.conflicting
    dbAfter := db.filter (fun r => decide (r.name ∉ st.removed))
    warnings := if st.conflicting = [] then [] else [st.conflicting] }

/-- Exception-faithful body of the `_load` row loop: like `loadStep`,
except that an uncaught conversion exception aborts the scan. -/
def loadStepExc (reg : Registry) (dj : DjangoSettings) (oc : OtherConvExc)
    (st : LoadState) (row : Row) : Except PyErr LoadState :=
  match reg row.name with
  | Option.none => .ok { st with removed := st.removed ++ [row.name] }
  | some desc =>
    match convertOrDefaultExc oc desc row.value with
    | .error e => .error e
    | .ok settingValue =>
      match dj row.name with
      | Option.none =>
        .ok { st with cache := cacheInsert st.cache row.name settingValue }
      | some _ =>
        if settingValue = desc.default then .ok st
        else .ok { st with conflicting := st.conflicting ++ [row.name] }

/-- Exception-faithful row scan of `Settings._load`: the loop over
`Setting.objects.all()` stops at the first uncaught exception, which
propagates. -/
def loadScanExc (reg : Registry) (dj : DjangoSettings) (oc : OtherConvExc) :
    LoadState → List Row → Except PyErr LoadState
  | st, [] => .ok st
  | st, row :: rest =>
    match loadStepExc reg dj oc st row with
    | .error e => .error e
    | .ok st' => loadScanExc reg dj oc st' rest

/-- Exception-faithful `Settings._load`: an uncaught conversion exception
aborts the whole load (no cache is returned, no bulk delete and no
warning happen); on success the result is as in `Settings.load`. -/
def Settings.loadExc (reg : Registry) (dj : DjangoSettings) (oc : OtherConvExc)
    (db : List Row) : Except PyErr LoadResult :=
  match loadScanExc reg dj oc ⟨[], [], emptyCache⟩ db with
  | .error e => .error e
  | .ok st =>
    .ok { newCache := st.cache
          removedSettings := st.removed
          conflictingSettings := st.conflicting
          dbAfter := db.filter (fun r => decide (r.name ∉ st.removed))
          warnings := if st.conflicting = [] then [] else [st.conflicting] }

/-- Request identities: the `NULL_REQUEST` sentinel or a real request. -/
inductive ReqId : Type
  | nullRequest
  | req (n : Nat)
deriving DecidableEq, Repr

/-- The property `self._current_request`: `current_request() or self.NULL_REQUEST`,
with the ambient request modelled as an `Option Nat`. -/
def currentReq (ambient : Option Nat) : ReqId :=
  match ambient with
  | some n => .req n
  | Option.none => .nullRequest

/-- The state of the `Settings` object: `_editable_caches`, the
(weak-key) dict from request identity to loaded cache. -/
structure SettingsState where
  editableCaches : ReqId → Option Cache

/-- The constructor `Settings.__init__`: the cache dict pre-seeded with an empty entry
for `NULL_REQUEST` (`WeakKeyDictionary({self.NULL_REQUEST: {}})`). -/
def Settings.init : SettingsState :=
  ⟨fun r => if r = ReqId.nullRequest then some emptyCache else Option.none⟩

/-- The method `Settings.clear_cache`: `self._editable_caches.pop(self._current_request,
None)` — evict the current request identity's entry, idempotently. -/
def Settings.clear_cache (st : SettingsState) (ambient : Option Nat) : SettingsState :=
  ⟨fun r => if r = currentReq ambient then Option.none else st.editableCaches r⟩

/-- What one call to `Settings._get_editable` yields: the cache served,
the state afterwards, and whether the database scan (`self._load()`) ran. -/
structure EditableResult where
  cache : Cache
  state : SettingsState
  didScan : Bool

/-- The method `Settings._get_editable(request)`: serve the stored cache on a hit; on
a `KeyError` miss, run `self._load()` and store its result under the
request identity. -/
def Settings.getEditable (reg : Registry) (dj : DjangoSettings) (oc : OtherConv)
    (db : List Row) (st : SettingsState) (r : ReqId) : EditableResult :=
  match st.editableCaches r with
  | some c => ⟨c, st, false⟩
  | Option.none =>
    let c := (Settings.load reg dj oc db).newCache
    ⟨c, ⟨fun r2 => if r2 = r then some c else st.editableCaches r2⟩, true⟩

/-- What one attribute access on the resolver yields: the value (or the
`AttributeError` that propagated), the state afterwards, and whether a
database scan ran. -/
structure GetattrResult where
  result : Except PyErr PyVal
  state : SettingsState
  didScan : Bool

/-- The method `Settings.__getattr__(name)`: unregistered names delegate to
`django_settings` (raising `AttributeError` when absent there too);
registered non-editable names read `getattr(django_settings, name,
default)`; registered editable names consult the per-request cache via
`_get_editable`, falling back to `getattr(django_settings, name,
default)` on a cache-key miss. -/
def Settings.getattr (reg : Registry) (dj : DjangoSettings) (oc : OtherConv)
    (db : List Row) (st : SettingsState) (ambient : Option Nat)
    (name : String) : GetattrResult :=
  match reg name with
  | Option.none =>
    ⟨match dj name with
     | some v => .ok v
     | Option.none => .error .attributeError, st, false⟩
  | some desc =>
    if desc.editable then
      let er := Settings.getEditable reg dj oc db st (currentReq ambient)
      match er.cache name with
      | some v => ⟨.ok v, er.state, er.didScan⟩
      | Option.none => ⟨.ok ((dj name).getD desc.default), er.state, er.didScan⟩
    else
      ⟨.ok ((dj name).getD desc.default), st, false⟩

/-- Modelled from the spec (resolve, §4.2): the three-tier policy in the
spec's words — an unregistered name delegates entirely to the framework
settings object; a registered non-editable name takes the framework value
when defined, else the registered default; a registered editable name
takes the per-request cache's value when present, else the framework
value when defined, else the registered default. -/
def resolveSpec (reg : Registry) (dj : DjangoSettings) (editableCache : Cache)
    (name : String) : Except PyErr PyVal :=
  match reg name with
  | Option.none =>
    match dj name with
    | some v => .ok v
    | Option.none => .error .attributeError
  | some desc =>
    if desc.editable then
      match editableCache name with
      | some v => .ok v
      | Option.none =>
        match dj name with
        | some v => .ok v
        | Option.none => .ok desc.default
    else
      match dj name with
      | some v => .ok v
      | Option.none => .ok desc.default

/-! ### Helper lemmas about the `_load` row scan -/

theorem loadStep_removed_mono (reg : Registry) (dj : DjangoSettings)
    (oc : OtherConv) (st : LoadState) (row : Row) (x : String)
    (h : x ∈ st.removed) : x ∈ (loadStep reg dj oc st row).removed := by
  unfold loadStep
  split
  · exact List.mem_append_left _ h
  · split
    · exact h
    · split
      · exact h
      · exact h

theorem loadStep_conflicting_mono (reg : Registry) (dj : DjangoSettings)
    (oc : OtherConv) (st : LoadState) (row : Row) (x : String)
    (h : x ∈ st.conflicting) : x ∈ (loadStep reg dj oc st row).conflicting := by
  unfold loadStep
  split
  · exact h
  · split
    · exact h
    · split
      · exact h
      · exact List.mem_append_left _ h

theorem loadFold_removed_mono (reg : Registry) (dj : DjangoSettings)
    (oc : OtherConv) (x : String) :
    ∀ (db : List Row) (st : LoadState),
      x ∈ st.removed → x ∈ (db.foldl (loadStep reg dj oc) st).removed := by
  intro db
  induction db with
  | nil => exact fun st h => h
  | cons row rest ih =>
    intro st h
    rw [List.foldl_cons]
    exact ih _ (loadStep_removed_mono reg dj oc st row x h)

theorem loadFold_conflicting_mono (reg : Registry) (dj : DjangoSettings)
    (oc : OtherConv) (x : String) :
    ∀ (db : List Row) (st : LoadState),
      x ∈ st.conflicting → x ∈ (db.foldl (loadStep reg dj oc) st).conflicting := by
  intro db
  induction db with
  | nil => exact fun st h => h
  | cons row rest ih =>
    intro st h
    rw [List.foldl_cons]
    exact ih _ (loadStep_conflicting_mono reg dj oc st row x h)

theorem loadStep_cache_djSome (reg : Registry) (dj : DjangoSettings)
    (oc : OtherConv) (st : LoadState) (row : Row) (n : String)
    (h : (dj n).isSome = true) :
    (loadStep reg dj oc st row).cache n = st.cache n := by
  unfold loadStep
  split
  · rfl
  · split
    · rename_i desc hdj
      show cacheInsert st.cache row.name _ n = st.cache n
      unfold cacheInsert
      have hne : n ≠ row.name := by
        intro e
        rw [e, hdj] at h
        exact Bool.false_ne_true h
      simp [hne]
    · split
      · rfl
      · rfl

theorem loadStep_cache_unreg (reg : Registry) (dj : DjangoSettings)
    (oc : OtherConv) (st : LoadState) (row : Row) (n : String)
    (h : reg n = Option.none) :
    (loadStep reg dj oc st row).cache n = st.cache n := by
  unfold loadStep
  split
  · rfl
  · rename_i desc hreg
    have hne : n ≠ row.name := by
      intro e
      rw [e, hreg] at h
      exact Option.some_ne_none desc h
    split
    · show cacheInsert st.cache row.name _ n = st.cache n
      unfold cacheInsert
      simp [hne]
    · split
      · rfl
      · rfl

theorem loadFold_cache_djSome (reg : Registry) (dj : DjangoSettings)
    (oc : OtherConv) (n : String) (h : (dj n).isSome = true) :
    ∀ (db : List Row) (st : LoadState),
      (db.foldl (loadStep reg dj oc) st).cache n = st.cache n := by
  intro db
  induction db with
  | nil => exact fun st => rfl
  | cons row rest ih =>
    intro st
    rw [List.foldl_cons, ih, loadStep_cache_djSome reg dj oc st row n h]

theorem loadFold_cache_unreg (reg : Registry) (dj : DjangoSettings)
    (oc : OtherConv) (n : String) (h : reg n = Option.none) :
    ∀ (db : List Row) (st : LoadState),
      (db.foldl (loadStep reg dj oc) st).cache n = st.cache n := by
  intro db
  induction db with
  | nil => exact fun st => rfl
  | cons row rest ih =>
    intro st
    rw [List.foldl_cons, ih, loadStep_cache_unreg reg dj oc st row n h]

theorem load_removed_of_mem (reg : Registry) (dj : DjangoSettings)
    (oc : OtherConv) (db : List Row) (row : Row)
    (hrow : row ∈ db) (h : reg row.name = Option.none) :
    row.name ∈ (db.foldl (loadStep reg dj oc) ⟨[], [], emptyCache⟩).removed := by
  obtain ⟨pre, post, rfl⟩ := List.append_of_mem hrow
  rw [List.foldl_append, List.foldl_cons]
  apply loadFold_removed_mono
  simp only [loadStep, h]
  exact List.mem_append_right _ (List.mem_singleton.mpr rfl)

theorem load_conflicting_of_mem (reg : Registry) (dj : DjangoSettings)
    (oc : OtherConv) (db : List Row) (row : Row) (desc : SettingDesc)
    (hrow : row ∈ db) (hr : reg row.name = some desc)
    (hdj : (dj row.name).isSome = true)
    (hne : convertOrDefault oc desc row.value ≠ desc.default) :
    row.name ∈ (db.foldl (loadStep reg dj oc) ⟨[], [], emptyCache⟩).conflicting := by
  obtain ⟨pre, post, rfl⟩ := List.append_of_mem hrow
  rw [List.foldl_append, List.foldl_cons]
  apply loadFold_conflicting_mono
  obtain ⟨v, hv⟩ := Option.isSome_iff_exists.mp hdj
  simp only [loadStep, hr, hv, if_neg hne]
  exact List.mem_append_right _ (List.mem_singleton.mpr rfl)

/-! ### Claim theorems -/

/-- C5: the stored-text-to-boolean conversion (`TYPE_FUNCTIONS[bool]`,
`lambda val: val != "False"`) maps the exact text `"False"` to `false` and
every other string to `true`. -/
theorem C5_bool_conversion_asymmetric (oc : OtherConv) :
    convertValue oc .bool "False" = some (.bool false) ∧
    ∀ s : String, s ≠ "False" → convertValue oc .bool s = some (.bool true) := by
  constructor
  · simp [convertValue]
  · intro s hs
    simp [convertValue, hs]

/-- C5 witness: `"False"` converts to `false`; `"True"`, `"1"`, `""` and
`"anything"` all convert to `true`. -/
theorem C5_bool_conversion_asymmetric_witness :
    convertValue (fun _ _ => Option.none) .bool "False" = some (.bool false) ∧
    convertValue (fun _ _ => Option.none) .bool "True" = some (.bool true) ∧
    convertValue (fun _ _ => Option.none) .bool "1" = some (.bool true) ∧
    convertValue (fun _ _ => Option.none) .bool "" = some (.bool true) ∧
    convertValue (fun _ _ => Option.none) .bool "anything" = some (.bool true) :=
  ⟨(C5_bool_conversion_asymmetric (fun _ _ => Option.none)).1,
   (C5_bool_conversion_asymmetric (fun _ _ => Option.none)).2 "True" (by decide),
   (C5_bool_conversion_asymmetric (fun _ _ => Option.none)).2 "1" (by decide),
   (C5_bool_conversion_asymmetric (fun _ _ => Option.none)).2 "" (by decide),
   (C5_bool_conversion_asymmetric (fun _ _ => Option.none)).2 "anything" (by decide)⟩

/-- A Django settings object defining no names (for concrete instances). -/
def djEmpty : DjangoSettings := fun _ => Option.none

/-- A registry with no registered names (for concrete instances). -/
def regEmpty : Registry := fun _ => Option.none

/-- Other-class conversion that always raises `ValueError` (concrete
instance of the model parameter). -/
def ocNone : OtherConv := fun _ _ => Option.none

theorem register_setting_named_default_path (reg : Registry)
    (dj : DjangoSettings) (n : String) (label : Option String)
    (editable : Bool) (description : Option String) (default : PyVal)
    (choices : Option (List PyVal)) (append : Bool) (translatable : Bool)
    (hargs : ¬(editable = true ∧ default = PyVal.none))
    (hpath : append = false ∨ reg n = Option.none) :
    register_setting_named reg dj n label editable description default
        choices append translatable
      = .ok (fun m => if m = n then
          some { name := n, label := label.getD (pyTitle (n.replace "_" " ")),
                 editable := if (dj n).isSome then false else editable,
                 description := description, default := default,
                 choices := choices, type := inferSettingType default,
                 translatable := translatable }
        else reg m) := by
  unfold register_setting_named
  rw [if_neg hargs]
  rcases hpath with h | h
  · subst h
    rcases hr : reg n with _ | desc <;> rfl
  · rw [h]

/-- C7: type inference at registration follows the `bool`-before-`int`
chain: a boolean default yields `bool` (never `int`, although a Python
boolean is an instance of `int`), an integer default yields `int`, a text
or lazily-translated default yields `str`, a byte-string default yields
`bytes`, and any other default yields its own runtime class; a successful
non-append registration stores exactly this inferred type. -/
theorem C7_type_inference_order :
    (∀ b, inferSettingType (.bool b) = .bool) ∧
    (∀ b, isinstInt (.bool b) = true) ∧
    (∀ b, inferSettingType (.bool b) ≠ .int) ∧
    (∀ i, inferSettingType (.int i) = .int) ∧
    (∀ s, inferSettingType (.str s) = .str) ∧
    (∀ s, inferSettingType (.promise s) = .str) ∧
    (∀ bs, inferSettingType (.bytes bs) = .bytes) ∧
    (∀ d, isinstBool d = false → isinstInt d = false →
       isinstStrOrPromise d = false → isinstBytes d = false →
       inferSettingType d = d.typeOf) ∧
    (∀ (reg : Registry) (dj : DjangoSettings) (reg' : Registry) (n : String)
       (label : Option String) (editable : Bool) (description : Option String)
       (default : PyVal) (choices : Option (List PyVal)) (translatable : Bool),
       register_setting reg dj (some n) label editable description default
           choices false translatable = .ok reg' →
       ∃ desc, reg' n = some desc ∧ desc.type = inferSettingType default) := by
  refine ⟨fun b => rfl, fun b => rfl, fun b h => PyType.noConfusion h,
    fun i => rfl, fun s => rfl, fun s => rfl, fun bs => rfl, ?_, ?_⟩
  · intro d h1 h2 h3 h4
    simp [inferSettingType, h1, h2, h3, h4]
  · intro reg dj reg' n label editable description default choices translatable hok
    by_cases hargs : editable = true ∧ default = PyVal.none
    · have : register_setting_named reg dj n label editable description
          default choices false translatable = Except.error .typeError := by
        unfold register_setting_named
        rw [if_pos hargs]
      rw [show register_setting reg dj (some n) label editable description
            default choices false translatable
          = register_setting_named reg dj n label editable description
            default choices false translatable from rfl, this] at hok
      exact absurd hok (by simp)
    · have hdef := register_setting_named_default_path reg dj n label editable
        description default choices false translatable hargs (Or.inl rfl)
      rw [show register_setting reg dj (some n) label editable description
            default choices false translatable
          = register_setting_named reg dj n label editable description
            default choices false translatable from rfl, hdef] at hok
      have hfun := Except.ok.inj hok
      refine ⟨{ name := n, label := label.getD (pyTitle (n.replace "_" " ")),
                editable := if (dj n).isSome then false else editable,
                description := description, default := default,
                choices := choices, type := inferSettingType default,
                translatable := translatable }, ?_, rfl⟩
      rw [← hfun]
      show (if n = n then some _ else reg n) = some _
      rw [if_pos rfl]

/-- Shared fixture: a registered descriptor for `"N"` with integer
default `5`. -/
def descN : SettingDesc :=
  { name := "N", label := "N", editable := false, description := Option.none,
    default := .int 5, choices := Option.none, type := .int,
    translatable := false }

/-- Shared fixture: a registry holding `descN` under `"N"`. -/
def regN : Registry := fun m => if m = "N" then some descN else regEmpty m

/-- C7 witness: default `True` yields `bool` (and not `int`, even though
a Python boolean is an instance of `int`), `5` yields `int`, `"a"` yields
`str`, a lazily-translated `"a"` yields `str`, `b"a"` yields `bytes`, a
list default yields its own runtime class, and registering `"N"` with
default `5` stores a descriptor of type `int`. -/
theorem C7_type_inference_order_witness :
    inferSettingType (.bool true) = .bool ∧
    isinstInt (.bool true) = true ∧
    inferSettingType (.bool true) ≠ .int ∧
    inferSettingType (.int 5) = .int ∧
    inferSettingType (.str "a") = .str ∧
    inferSettingType (.promise "a") = .str ∧
    inferSettingType (.bytes [97]) = .bytes ∧
    inferSettingType (.list ["a"]) = (PyVal.list ["a"]).typeOf ∧
    (register_setting regEmpty djEmpty (some "N") (some "N") false
        Option.none (.int 5) Option.none false false = .ok regN) ∧
    (∃ desc, regN "N" = some desc ∧ desc.type = inferSettingType (.int 5)) := by
  refine ⟨C7_type_inference_order.1 true,
    C7_type_inference_order.2.1 true,
    C7_type_inference_order.2.2.1 true,
    C7_type_inference_order.2.2.2.1 5,
    C7_type_inference_order.2.2.2.2.1 "a",
    C7_type_inference_order.2.2.2.2.2.1 "a",
    C7_type_inference_order.2.2.2.2.2.2.1 [97],
    C7_type_inference_order.2.2.2.2.2.2.2.1 (.list ["a"]) rfl rfl rfl rfl,
    rfl,
    C7_type_inference_order.2.2.2.2.2.2.2.2 regEmpty djEmpty regN "N"
      (some "N") false Option.none (.int 5) Option.none false rfl⟩

/-- C6: a registration (off the append path) of a name that the framework
settings object already defines as an attribute stores a descriptor whose
`editable` flag is `false`, regardless of the `editable` argument passed
by the caller. -/
theorem C6_framework_name_forces_uneditable (reg : Registry)
    (dj : DjangoSettings) (reg' : Registry) (n : String)
    (label : Option String) (editable : Bool) (description : Option String)
    (default : PyVal) (choices : Option (List PyVal)) (append : Bool)
    (translatable : Bool)
    (hdj : (dj n).isSome = true)
    (hpath : append = false ∨ reg n = Option.none)
    (hok : register_setting reg dj (some n) label editable description
        default choices append translatable = .ok reg') :
    ∃ desc, reg' n = some desc ∧ desc.editable = false := by
  by_cases hargs : editable = true ∧ default = PyVal.none
  · have : register_setting_named reg dj n label editable description
        default choices append translatable = Except.error .typeError := by
      unfold register_setting_named
      rw [if_pos hargs]
    rw [show register_setting reg dj (some n) label editable description
          default choices append translatable
        = register_setting_named reg dj n label editable description
          default choices append translatable from rfl, this] at hok
    exact absurd hok (by simp)
  · have hdef := register_setting_named_default_path reg dj n label editable
      description default choices append translatable hargs hpath
    rw [show register_setting reg dj (some n) label editable description
          default choices append translatable
        = register_setting_named reg dj n label editable description
          default choices append translatable from rfl, hdef] at hok
    have hfun := Except.ok.inj hok
    refine ⟨{ name := n, label := label.getD (pyTitle (n.replace "_" " ")),
              editable := if (dj n).isSome then false else editable,
              description := description, default := default,
              choices := choices, type := inferSettingType default,
              translatable := translatable }, ?_, ?_⟩
    · rw [← hfun]
      show (if n = n then some _ else reg n) = some _
      rw [if_pos rfl]
    · show (if (dj n).isSome then false else editable) = false
      simp [hdj]

/-- Fixture for the C6 witness: a Django settings object hardcoding
`"X"`. -/
def djC6 : DjangoSettings := fun m => if m = "X" then some (.int 1) else Option.none

/-- Fixture for the C6 witness: the descriptor `register_setting` stores
for `"X"` — `editable` forced to `false` although `true` was passed. -/
def descC6 : SettingDesc :=
  { name := "X", label := "X", editable := false, description := Option.none,
    default := .int 2, choices := Option.none, type := .int,
    translatable := false }

/-- Fixture for the C6 witness: the registry after registering `"X"`. -/
def regC6 : Registry := fun m => if m = "X" then some descC6 else regEmpty m

/-- C6 witness: the framework defines `"X"`, `register_setting` is called
with `editable = true`, and the stored descriptor has `editable = false`. -/
theorem C6_framework_name_forces_uneditable_witness :
    (djC6 "X").isSome = true ∧
    register_setting regEmpty djC6 (some "X") (some "X") true Option.none
        (.int 2) Option.none false false = .ok regC6 ∧
    ∃ desc, regC6 "X" = some desc ∧ desc.editable = false :=
  ⟨rfl, rfl,
   C6_framework_name_forces_uneditable regEmpty djC6 regC6 "X" (some "X")
     true Option.none (.int 2) Option.none false false rfl (Or.inl rfl) rfl⟩

/-- C8: calling `register_setting` with `append = true` on an
already-registered name concatenates the new default onto the existing
descriptor's default and changes nothing else — the resulting registry
maps the name to the old descriptor with only its `default` field
replaced, and every other name is untouched (no label recomputation, no
`editable` forcing, no type re-inference). -/
theorem C8_append_concatenates_default (reg : Registry) (dj : DjangoSettings)
    (n : String) (desc : SettingDesc) (default d' : PyVal)
    (label : Option String) (editable : Bool) (description : Option String)
    (choices : Option (List PyVal)) (translatable : Bool)
    (hmem : reg n = some desc)
    (hadd : pyAdd desc.default default = some d')
    (hargs : ¬(editable = true ∧ default = PyVal.none)) :
    register_setting reg dj (some n) label editable description default
        choices true translatable
      = .ok (fun m => if m = n then some { desc with default := d' } else reg m) := by
  show register_setting_named reg dj n label editable description default
      choices true translatable = _
  unfold register_setting_named
  rw [if_neg hargs, hmem]
  simp only [hadd]

/-- Fixture for the C8 witness: the descriptor for `"L"` before the
append, with default `["a"]`. -/
def descC8 : SettingDesc :=
  { name := "L", label := "Lbl", editable := true, description := some "d",
    default := .list ["a"], choices := Option.none, type := .other "list",
    translatable := false }

/-- Fixture for the C8 witness: a registry holding `descC8` under `"L"`. -/
def regC8 : Registry := fun m => if m = "L" then some descC8 else regEmpty m

/-- C8 witness: an existing default `["a"]` appended with `["b"]` becomes
`["a", "b"]`, with the name, label, editable, description, choices, type
and translatable fields all unchanged. -/
theorem C8_append_concatenates_default_witness :
    regC8 "L" = some descC8 ∧
    pyAdd descC8.default (.list ["b"]) = some (.list ["a", "b"]) ∧
    register_setting regC8 djEmpty (some "L") Option.none false Option.none
        (.list ["b"]) Option.none true false
      = .ok (fun m => if m = "L" then
          some { descC8 with default := .list ["a", "b"] } else regC8 m) :=
  ⟨rfl, rfl,
   C8_append_concatenates_default regC8 djEmpty "L" descC8 (.list ["b"])
     (.list ["a", "b"]) Option.none false Option.none Option.none false
     rfl rfl (by simp)⟩

/-- C2: during `_load`, a persisted row whose name the framework settings
object defines never puts its database value into the returned cache (the
cache has no entry for the name, so resolution falls through to the
framework value); when the name is registered and the converted database
value differs from the registered default, the name is recorded in
`conflicting_settings`, and the load emits exactly one warning, carrying
the whole conflicting-names list. -/
theorem C2_framework_value_wins_single_warning (reg : Registry)
    (dj : DjangoSettings) (oc : OtherConv) (db : List Row) (row : Row)
    (hrow : row ∈ db) (hdj : (dj row.name).isSome = true) :
    (Settings.load reg dj oc db).newCache row.name = Option.none ∧
    ∀ desc, reg row.name = some desc →
      convertOrDefault oc desc row.value ≠ desc.default →
      row.name ∈ (Settings.load reg dj oc db).conflictingSettings ∧
      (Settings.load reg dj oc db).warnings
        = [(Settings.load reg dj oc db).conflictingSettings] := by
  constructor
  · show (db.foldl (loadStep reg dj oc) ⟨[], [], emptyCache⟩).cache row.name
      = Option.none
    rw [loadFold_cache_djSome reg dj oc row.name hdj db ⟨[], [], emptyCache⟩]
    rfl
  · intro desc hr hne
    have hmem := load_conflicting_of_mem reg dj oc db row desc hrow hr hdj hne
    refine ⟨hmem, ?_⟩
    show (if (db.foldl (loadStep reg dj oc) ⟨[], [], emptyCache⟩).conflicting
            = [] then [] else
          [(db.foldl (loadStep reg dj oc) ⟨[], [], emptyCache⟩).conflicting])
      = [(db.foldl (loadStep reg dj oc) ⟨[], [], emptyCache⟩).conflicting]
    rw [if_neg (List.ne_nil_of_mem hmem)]

/-- Fixture for the C2 witness: a Django settings object hardcoding
`"N"` to a value different from both the default and the stored row. -/
def djC2 : DjangoSettings := fun m => if m = "N" then some (.int 99) else Option.none

/-- C2 witness: registry `{"N" ↦ editable-int default 5}`, framework value
`99` for `"N"`, database row `("N", "7")`: the returned cache has no entry
for `"N"`, the name is in the conflict list, and the warning list is
exactly one warning naming `"N"`. -/
theorem C2_framework_value_wins_single_warning_witness :
    (⟨"N", "7"⟩ : Row) ∈ [(⟨"N", "7"⟩ : Row)] ∧
    (djC2 "N").isSome = true ∧
    regN "N" = some descN ∧
    convertOrDefault ocNone descN "7" ≠ descN.default ∧
    (Settings.load regN djC2 ocNone [⟨"N", "7"⟩]).newCache "N" = Option.none ∧
    "N" ∈ (Settings.load regN djC2 ocNone [⟨"N", "7"⟩]).conflictingSettings ∧
    (Settings.load regN djC2 ocNone [⟨"N", "7"⟩]).warnings
      = [(Settings.load regN djC2 ocNone [⟨"N", "7"⟩]).conflictingSettings] := by
  have h := C2_framework_value_wins_single_warning regN djC2 ocNone
    [⟨"N", "7"⟩] ⟨"N", "7"⟩ (List.mem_singleton.mpr rfl) rfl
  have h2 := h.2 descN rfl (by decide)
  exact ⟨List.mem_singleton.mpr rfl, rfl, rfl, by decide, h.1, h2.1, h2.2⟩

/-! ### The exception-faithful load agrees with `Settings.load` on
`ValueError`-only conversions -/

theorem convertValueExc_eq (ocE : OtherConvExc) (oc : OtherConv)
    (hoc : ∀ tag v, ocE tag v = match oc tag v with
      | some x => Except.ok x
      | Option.none => Except.error PyErr.valueError)
    (t : PyType) (v : String) :
    convertValueExc ocE t v = match convertValue oc t v with
      | some x => Except.ok x
      | Option.none => Except.error PyErr.valueError := by
  cases t with
  | bool => rfl
  | int =>
    show (match pyIntOfString v with
          | some i => Except.ok (PyVal.int i)
          | Option.none => Except.error PyErr.valueError)
        = match (pyIntOfString v).map PyVal.int with
          | some x => Except.ok x
          | Option.none => Except.error PyErr.valueError
    cases h : pyIntOfString v <;> rfl
  | str => rfl
  | bytes => rfl
  | other tag => exact hoc tag v

theorem convertOrDefaultExc_eq (ocE : OtherConvExc) (oc : OtherConv)
    (hoc : ∀ tag v, ocE tag v = match oc tag v with
      | some x => Except.ok x
      | Option.none => Except.error PyErr.valueError)
    (desc : SettingDesc) (v : String) :
    convertOrDefaultExc ocE desc v = .ok (convertOrDefault oc desc v) := by
  unfold convertOrDefaultExc convertOrDefault
  rw [convertValueExc_eq ocE oc hoc desc.type v]
  cases h : convertValue oc desc.type v <;> rfl

theorem loadStepExc_eq (reg : Registry) (dj : DjangoSettings)
    (ocE : OtherConvExc) (oc : OtherConv)
    (hoc : ∀ tag v, ocE tag v = match oc tag v with
      | some x => Except.ok x
      | Option.none => Except.error PyErr.valueError)
    (st : LoadState) (row : Row) :
    loadStepExc reg dj ocE st row = .ok (loadStep reg dj oc st row) := by
  unfold loadStepExc loadStep
  cases hr : reg row.name with
  | none => rfl
  | some desc =>
    dsimp only
    rw [convertOrDefaultExc_eq ocE oc hoc desc row.value]
    cases hdj : dj row.name with
    | none => rfl
    | some v =>
      by_cases hc : convertOrDefault oc desc row.value = desc.default <;>
        simp [hc]

theorem loadScanExc_eq (reg : Registry) (dj : DjangoSettings)
    (ocE : OtherConvExc) (oc : OtherConv)
    (hoc : ∀ tag v, ocE tag v = match oc tag v with
      | some x => Except.ok x
      | Option.none => Except.error PyErr.valueError) :
    ∀ (db : List Row) (st : LoadState),
      loadScanExc reg dj ocE st db
        = .ok (db.foldl (loadStep reg dj oc) st) := by
  intro db
  induction db with
  | nil => intro st; rfl
  | cons row rest ih =>
    intro st
    show (match loadStepExc reg dj ocE st row with
          | Except.error e => (Except.error e : Except PyErr LoadState)
          | Except.ok st' => loadScanExc reg dj ocE st' rest) = _
    rw [loadStepExc_eq reg dj ocE oc hoc st row]
    show loadScanExc reg dj ocE (loadStep reg dj oc st row) rest = _
    rw [ih, List.foldl_cons]

/-- On conversions whose only failure mode is `ValueError` (the
`OtherConv` fragment), the exception-faithful load succeeds and agrees
with the total `Settings.load`; the approved `Settings.load`-based
statements thus describe exactly the runs of the program in which no
uncaught conversion exception occurs. -/
theorem loadExc_eq_load (reg : Registry) (dj : DjangoSettings)
    (ocE : OtherConvExc) (oc : OtherConv)
    (hoc : ∀ tag v, ocE tag v = match oc tag v with
      | some x => Except.ok x
      | Option.none => Except.error PyErr.valueError)
    (db : List Row) :
    Settings.loadExc reg dj ocE db = .ok (Settings.load reg dj oc db) := by
  unfold Settings.loadExc Settings.load
  rw [loadScanExc_eq reg dj ocE oc hoc db ⟨[], [], emptyCache⟩]

/-- Fixture for the C4 counterexample: the descriptor `register_setting`
stores for a legal `default=None, editable=False` registration — its
inferred type is the `NoneType` class. -/
def descD : SettingDesc :=
  { name := "D", label := "D", editable := false, description := Option.none,
    default := PyVal.none, choices := Option.none,
    type := .other "NoneType", translatable := false }

/-- Fixture for the C4 counterexample: a registry holding `descD`. -/
def regD : Registry := fun m => if m = "D" then some descD else regEmpty m

/-- Fixture for the C4 counterexample: the `NoneType` class's conversion
behaviour — calling `NoneType(...)` on any text raises `TypeError` in
Python, which `except ValueError` does not catch. -/
def ocNoneType : OtherConvExc := fun _ _ => .error .typeError

/-- C4 counterexample: the claim fails as stated.  Registering `"D"` with
`default=None, editable=False` is legal and stores a `NoneType`-typed
descriptor; converting the persisted row `("D", "x")` then raises
`TypeError`, which the load's `except ValueError` does not catch, so the
conversion failure propagates to the caller and aborts the load instead
of falling back to the registered default — "never propagates ... for
every registered type" is false. -/
theorem C4_nonValueError_aborts_counterexample :
    register_setting regEmpty djEmpty (some "D") (some "D") false Option.none
        PyVal.none Option.none false false = .ok regD ∧
    regD "D" = some descD ∧
    inferSettingType PyVal.none = descD.type ∧
    convertValueExc ocNoneType descD.type "x" = .error .typeError ∧
    loadStepExc regD djEmpty ocNoneType ⟨[], [], emptyCache⟩ ⟨"D", "x"⟩
      = .error .typeError ∧
    Settings.loadExc regD djEmpty ocNoneType [⟨"D", "x"⟩]
      = .error .typeError :=
  ⟨rfl, rfl, rfl, rfl, rfl, rfl⟩

/-- C4 (amended): when the stored text of a registered row fails to
convert to the descriptor's type with a `ValueError` — the failure the
source's `except ValueError` is written for — the load uses the
registered default for that setting instead: `convertOrDefaultExc`
returns the default, and the row-processing step completes normally,
either caching the default or leaving the state unchanged; such a
failure never propagates and never aborts the load.  (A conversion
failure raising anything other than `ValueError`, possible only for
registered types outside the four special-cased ones, does propagate
and abort the load — see the counterexample.) -/
theorem C4_valueError_falls_back_to_default (reg : Registry)
    (dj : DjangoSettings) (oc : OtherConvExc) (st : LoadState) (row : Row)
    (desc : SettingDesc)
    (hr : reg row.name = some desc)
    (hfail : convertValueExc oc desc.type row.value = .error .valueError) :
    convertOrDefaultExc oc desc row.value = .ok desc.default ∧
    (dj row.name = Option.none →
       loadStepExc reg dj oc st row
         = .ok { st with cache := cacheInsert st.cache row.name desc.default }) ∧
    ((dj row.name).isSome = true → loadStepExc reg dj oc st row = .ok st) := by
  have hcd : convertOrDefaultExc oc desc row.value = .ok desc.default := by
    unfold convertOrDefaultExc
    rw [hfail]
  refine ⟨hcd, ?_, ?_⟩
  · intro hdj
    simp [loadStepExc, hr, hdj, hcd]
  · intro hdj
    obtain ⟨v, hv⟩ := Option.isSome_iff_exists.mp hdj
    simp [loadStepExc, hr, hv, hcd]

/-- Fixture for the C4 witness: other-class conversions that fail with a
`ValueError` on any text. -/
def ocExcVE : OtherConvExc := fun _ _ => .error .valueError

/-- C4 witness: registry `{"N" ↦ int default 5}` and row `("N", "xx")`
whose text is not an integer: the conversion raises `ValueError`, the
default `5` is cached when the framework lacks `"N"`, and the step
completes as a no-op when the framework defines `"N"` — the failure is
consumed, not propagated. -/
theorem C4_valueError_falls_back_to_default_witness :
    regN "N" = some descN ∧
    convertValueExc ocExcVE descN.type "xx" = .error .valueError ∧
    convertOrDefaultExc ocExcVE descN "xx" = .ok descN.default ∧
    (djEmpty "N" = Option.none →
       loadStepExc regN djEmpty ocExcVE ⟨[], [], emptyCache⟩ ⟨"N", "xx"⟩
         = .ok { removed := [], conflicting := [],
                 cache := cacheInsert emptyCache "N" descN.default }) ∧
    ((djC2 "N").isSome = true →
       loadStepExc regN djC2 ocExcVE ⟨[], [], emptyCache⟩ ⟨"N", "xx"⟩
         = .ok ⟨[], [], emptyCache⟩) := by
  have h1 := C4_valueError_falls_back_to_default regN djEmpty ocExcVE
    ⟨[], [], emptyCache⟩ ⟨"N", "xx"⟩ descN rfl rfl
  have h2 := C4_valueError_falls_back_to_default regN djC2 ocExcVE
    ⟨[], [], emptyCache⟩ ⟨"N", "xx"⟩ descN rfl rfl
  exact ⟨rfl, rfl, h1.1, fun hd => h1.2.1 hd, fun hd => h2.2.2 hd⟩

/-- C9: during `_load`, a persisted row whose name is absent from the
registry is recorded in `removed_settings`, its name gets no entry in the
returned cache, and after the bulk delete no row of that name remains in
the database; the load completes normally (the cleanup is not an error). -/
theorem C9_unregistered_rows_cleaned (reg : Registry) (dj : DjangoSettings)
    (oc : OtherConv) (db : List Row) (row : Row)
    (hrow : row ∈ db) (hunreg : reg row.name = Option.none) :
    row.name ∈ (Settings.load reg dj oc db).removedSettings ∧
    (Settings.load reg dj oc db).newCache row.name = Option.none ∧
    ∀ r ∈ (Settings.load reg dj oc db).dbAfter, r.name ≠ row.name := by
  have hmem := load_removed_of_mem reg dj oc db row hrow hunreg
  refine ⟨hmem, ?_, ?_⟩
  · show (db.foldl (loadStep reg dj oc) ⟨[], [], emptyCache⟩).cache row.name
      = Option.none
    rw [loadFold_cache_unreg reg dj oc row.name hunreg db ⟨[], [], emptyCache⟩]
    rfl
  · intro r hr he
    have hfil : r ∈ db.filter (fun r2 => decide
        (r2.name ∉ (db.foldl (loadStep reg dj oc) ⟨[], [], emptyCache⟩).removed)) := hr
    rw [List.mem_filter] at hfil
    have hnot := of_decide_eq_true hfil.2
    rw [he] at hnot
    exact hnot hmem

/-- C9 witness: registry `{"N" ↦ ...}` and rows `("G", "1")`, `("N", "7")`
with `"G"` unregistered: `"G"` is listed for removal, absent from the
returned cache, and no `"G"` row survives the bulk delete. -/
theorem C9_unregistered_rows_cleaned_witness :
    (⟨"G", "1"⟩ : Row) ∈ [(⟨"G", "1"⟩ : Row), ⟨"N", "7"⟩] ∧
    regN "G" = Option.none ∧
    "G" ∈ (Settings.load regN djEmpty ocNone
      [⟨"G", "1"⟩, ⟨"N", "7"⟩]).removedSettings ∧
    (Settings.load regN djEmpty ocNone
      [⟨"G", "1"⟩, ⟨"N", "7"⟩]).newCache "G" = Option.none ∧
    ∀ r ∈ (Settings.load regN djEmpty ocNone
      [⟨"G", "1"⟩, ⟨"N", "7"⟩]).dbAfter, r.name ≠ "G" := by
  have h := C9_unregistered_rows_cleaned regN djEmpty ocNone
    [⟨"G", "1"⟩, ⟨"N", "7"⟩] ⟨"G", "1"⟩ (List.mem_cons_self _ _) rfl
  exact ⟨List.mem_cons_self _ _, rfl, h.1, h.2.1, h.2.2⟩

/-! ### Helper lemmas about `_get_editable` -/

theorem getEditable_hit (reg : Registry) (dj : DjangoSettings) (oc : OtherConv)
    (db : List Row) (st : SettingsState) (r : ReqId) (c : Cache)
    (h : st.editableCaches r = some c) :
    Settings.getEditable reg dj oc db st r = ⟨c, st, false⟩ := by
  unfold Settings.getEditable
  rw [h]

theorem getEditable_miss (reg : Registry) (dj : DjangoSettings) (oc : OtherConv)
    (db : List Row) (st : SettingsState) (r : ReqId)
    (h : st.editableCaches r = Option.none) :
    Settings.getEditable reg dj oc db st r
      = ⟨(Settings.load reg dj oc db).newCache,
         ⟨fun r2 => if r2 = r then some (Settings.load reg dj oc db).newCache
                    else st.editableCaches r2⟩, true⟩ := by
  unfold Settings.getEditable
  rw [h]

theorem getEditable_state_lookup (reg : Registry) (dj : DjangoSettings)
    (oc : OtherConv) (db : List Row) (st : SettingsState) (r : ReqId) :
    (Settings.getEditable reg dj oc db st r).state.editableCaches r
      = some (Settings.getEditable reg dj oc db st r).cache := by
  rcases h : st.editableCaches r with _ | c
  · rw [getEditable_miss reg dj oc db st r h]
    show (if r = r then some _ else st.editableCaches r) = some _
    rw [if_pos rfl]
  · rw [getEditable_hit reg dj oc db st r c h]
    exact h

/-- C1: attribute access on the resolver follows the spec's three-tier
policy exactly — an unregistered name delegates to the framework settings
object (raising `AttributeError` when the framework also lacks it), a
registered non-editable name takes the framework value when defined else
the registered default, and a registered editable name takes the
(lazily-built) per-request cache's value when present, else the framework
value when defined, else the registered default. -/
theorem C1_three_tier_resolution (reg : Registry) (dj : DjangoSettings)
    (oc : OtherConv) (db : List Row) (st : SettingsState)
    (amb : Option Nat) (name : String) :
    (Settings.getattr reg dj oc db st amb name).result
      = resolveSpec reg dj
          ((Settings.getEditable reg dj oc db st (currentReq amb)).cache) name := by
  unfold Settings.getattr resolveSpec
  rcases hreg : reg name with _ | desc
  · rcases hdj : dj name with _ | v <;> rfl
  · by_cases he : desc.editable = true
    · simp only [if_pos he]
      rcases hc : (Settings.getEditable reg dj oc db st (currentReq amb)).cache name
        with _ | v
      · rcases hdj : dj name with _ | v <;> rfl
      · rfl
    · simp only [if_neg he]
      rcases hdj : dj name with _ | v <;> rfl

/-- C3: the database scan of the editable-settings load runs at most once
per request identity between explicit clears — a stored cache entry is
served unchanged with no scan and no state change, independently of the
current database contents; two consecutive accesses under one identity
never scan twice (the second access returns the same cache, scans
nothing, and leaves the state alone even against different database
contents); an identity without an entry triggers the scan and caches
`_load`'s result; and `clear_cache` evicts the current identity's entry
so the next access scans anew. -/
theorem C3_db_scan_at_most_once (reg : Registry) (dj : DjangoSettings)
    (oc : OtherConv) :
    (∀ (db db' : List Row) (st : SettingsState) (r : ReqId) (c : Cache),
       st.editableCaches r = some c →
       Settings.getEditable reg dj oc db st r = ⟨c, st, false⟩ ∧
       Settings.getEditable reg dj oc db' st r
         = Settings.getEditable reg dj oc db st r) ∧
    (∀ (db db' : List Row) (st : SettingsState) (r : ReqId),
       (Settings.getEditable reg dj oc db'
          (Settings.getEditable reg dj oc db st r).state r).cache
         = (Settings.getEditable reg dj oc db st r).cache ∧
       (Settings.getEditable reg dj oc db'
          (Settings.getEditable reg dj oc db st r).state r).didScan = false ∧
       (Settings.getEditable reg dj oc db'
          (Settings.getEditable reg dj oc db st r).state r).state
         = (Settings.getEditable reg dj oc db st r).state) ∧
    (∀ (db : List Row) (st : SettingsState) (r : ReqId),
       st.editableCaches r = Option.none →
       (Settings.getEditable reg dj oc db st r).didScan = true ∧
       (Settings.getEditable reg dj oc db st r).cache
         = (Settings.load reg dj oc db).newCache) ∧
    (∀ (st : SettingsState) (amb : Option Nat),
       (Settings.clear_cache st amb).editableCaches (currentReq amb)
         = Option.none) := by
  refine ⟨?_, ?_, ?_, ?_⟩
  · intro db db' st r c h
    exact ⟨getEditable_hit reg dj oc db st r c h,
      (getEditable_hit reg dj oc db' st r c h).trans
        (getEditable_hit reg dj oc db st r c h).symm⟩
  · intro db db' st r
    have h := getEditable_state_lookup reg dj oc db st r
    rw [getEditable_hit reg dj oc db' _ r _ h]
    exact ⟨rfl, rfl, rfl⟩
  · intro db st r h
    rw [getEditable_miss reg dj oc db st r h]
    exact ⟨rfl, rfl⟩
  · intro st amb
    show (if currentReq amb = currentReq amb then Option.none else _)
      = Option.none
    rw [if_pos rfl]

/-- C3 witness: with the pre-seeded null-request entry, an access under
the null identity serves the stored empty cache without scanning; a
second access under request 1 after a first never scans even against a
changed database; request 1 has no entry initially so its first access
scans; and `clear_cache` under no ambient request evicts the null
entry. -/
theorem C3_db_scan_at_most_once_witness :
    Settings.init.editableCaches ReqId.nullRequest = some emptyCache ∧
    Settings.getEditable regN djEmpty ocNone [⟨"N", "7"⟩] Settings.init
        ReqId.nullRequest
      = ⟨emptyCache, Settings.init, false⟩ ∧
    (Settings.getEditable regN djEmpty ocNone [⟨"N", "8"⟩]
       (Settings.getEditable regN djEmpty ocNone [⟨"N", "7"⟩] Settings.init
         (ReqId.req 1)).state (ReqId.req 1)).didScan = false ∧
    Settings.init.editableCaches (ReqId.req 1) = Option.none ∧
    (Settings.getEditable regN djEmpty ocNone [⟨"N", "7"⟩] Settings.init
       (ReqId.req 1)).didScan = true ∧
    (Settings.clear_cache Settings.init Option.none).editableCaches
        (currentReq Option.none) = Option.none := by
  have h := C3_db_scan_at_most_once regN djEmpty ocNone
  exact ⟨rfl,
    (h.1 [⟨"N", "7"⟩] [⟨"N", "8"⟩] Settings.init ReqId.nullRequest emptyCache rfl).1,
    (h.2.1 [⟨"N", "7"⟩] [⟨"N", "8"⟩] Settings.init (ReqId.req 1)).2.1,
    rfl,
    (h.2.2.1 [⟨"N", "7"⟩] Settings.init (ReqId.req 1) rfl).1,
    h.2.2.2 Settings.init Option.none⟩

/-- C10: the resolver's constructor pre-seeds the null-request sentinel
with an empty cache, so with no ambient request an editable access runs
no database scan and resolves to the framework value or the registered
default; after `clear_cache` in a no-request context the entry is gone,
and the next editable access scans, rebuilds the shared sentinel slot
from `_load`'s result, and serves database-stored values. -/
theorem C10_null_request_preseeded (reg : Registry) (dj : DjangoSettings)
    (oc : OtherConv) (db : List Row) (name : String) (desc : SettingDesc)
    (hr : reg name = some desc) (he : desc.editable = true) :
    Settings.init.editableCaches ReqId.nullRequest = some emptyCache ∧
    (Settings.getattr reg dj oc db Settings.init Option.none name).didScan
      = false ∧
    (Settings.getattr reg dj oc db Settings.init Option.none name).result
      = .ok ((dj name).getD desc.default) ∧
    (Settings.clear_cache Settings.init Option.none).editableCaches
        ReqId.nullRequest = Option.none ∧
    (Settings.getattr reg dj oc db
       (Settings.clear_cache Settings.init Option.none) Option.none
       name).didScan = true ∧
    (Settings.getattr reg dj oc db
       (Settings.clear_cache Settings.init Option.none) Option.none
       name).state.editableCaches ReqId.nullRequest
      = some (Settings.load reg dj oc db).newCache ∧
    (Settings.getattr reg dj oc db
       (Settings.clear_cache Settings.init Option.none) Option.none
       name).result
      = .ok (match (Settings.load reg dj oc db).newCache name with
             | some v => v
             | Option.none => (dj name).getD desc.default) := by
  have hclear : (Settings.clear_cache Settings.init Option.none).editableCaches
      (currentReq Option.none) = Option.none := rfl
  have hinit : Settings.init.editableCaches (currentReq Option.none)
      = some emptyCache := rfl
  have hge1 := getEditable_hit reg dj oc db Settings.init
    (currentReq Option.none) emptyCache hinit
  have hge2 := getEditable_miss reg dj oc db
    (Settings.clear_cache Settings.init Option.none)
    (currentReq Option.none) hclear
  refine ⟨rfl, ?_, ?_, hclear, ?_, ?_, ?_⟩
  · simp only [Settings.getattr, hr, he, if_true, hge1]
    rfl
  · simp only [Settings.getattr, hr, he, if_true, hge1]
    rfl
  · simp only [Settings.getattr, hr, he, if_true, hge2]
    rcases hv : (Settings.load reg dj oc db).newCache name with _ | v <;> rfl
  · simp only [Settings.getattr, hr, he, if_true, hge2]
    rcases hv : (Settings.load reg dj oc db).newCache name with _ | v <;> rfl
  · simp only [Settings.getattr, hr, he, if_true, hge2]
    rcases hv : (Settings.load reg dj oc db).newCache name with _ | v <;>
      simp [hv]

/-- Fixture for the C10 witness: an editable descriptor for `"P"` with
integer default `10`. -/
def descC10 : SettingDesc :=
  { name := "P", label := "P", editable := true, description := Option.none,
    default := .int 10, choices := Option.none, type := .int,
    translatable := false }

/-- Fixture for the C10 witness: a registry holding `descC10`. -/
def regC10 : Registry := fun m => if m = "P" then some descC10 else regEmpty m

/-- Fixture for the C10 witness: a database row overriding `"P"`. -/
def dbC10 : List Row := [⟨"P", "25"⟩]

/-- C10 witness: with the fresh resolver and no ambient request, reading
the editable `"P"` runs no scan and yields the default `10` although the
database stores `25`; after `clear_cache` the next read scans and the
sentinel slot holds the loaded cache. -/
theorem C10_null_request_preseeded_witness :
    regC10 "P" = some descC10 ∧
    descC10.editable = true ∧
    (Settings.init.editableCaches ReqId.nullRequest = some emptyCache ∧
     (Settings.getattr regC10 djEmpty ocNone dbC10 Settings.init Option.none
        "P").didScan = false ∧
     (Settings.getattr regC10 djEmpty ocNone dbC10 Settings.init Option.none
        "P").result = .ok ((djEmpty "P").getD descC10.default) ∧
     (Settings.clear_cache Settings.init Option.none).editableCaches
         ReqId.nullRequest = Option.none ∧
     (Settings.getattr regC10 djEmpty ocNone dbC10
        (Settings.clear_cache Settings.init Option.none) Option.none
        "P").didScan = true ∧
     (Settings.getattr regC10 djEmpty ocNone dbC10
        (Settings.clear_cache Settings.init Option.none) Option.none
        "P").state.editableCaches ReqId.nullRequest
       = some (Settings.load regC10 djEmpty ocNone dbC10).newCache ∧
     (Settings.getattr regC10 djEmpty ocNone dbC10
        (Settings.clear_cache Settings.init Option.none) Option.none
        "P").result
       = .ok (match (Settings.load regC10 djEmpty ocNone dbC10).newCache "P" with
              | some v => v
              | Option.none => (djEmpty "P").getD descC10.default)) :=
  ⟨rfl, rfl,
   C10_null_request_preseeded regC10 djEmpty ocNone dbC10 "P" descC10 rfl rfl⟩

end Mezzanine
